import Mathlib

/-!
Shallow embedding of the Cultural Bias Shield (CBS) scoring pipeline.

The definitions below translate, function by function, the deterministic
arithmetic of the repository:

* `cultural_analyzer.py` — keyword-based dimension alignment
  (`_analyze_power_distance` … `_analyze_indulgence`), the weighted
  cultural-fit aggregation (`_calculate_cultural_score`) and the insight
  labels (`_generate_insights`);
* `bias_detector.py` (created by `script_2.py`) — the cultural-assumption
  sub-scan (`_detect_cultural_assumptions`, `_risk_to_severity`);
* `cultural_scorer.py` — bias penalty, per-country score, confidence
  bonus, data quality, confidence interval and the overall mean
  (`calculate_alignment`);
* `app.py` — `_generate_recommendations` and `_calculate_risk_level`.

Python floats are modelled as exact rationals (`ℚ`); decimal literals such
as `0.05` denote the corresponding exact rational.  Python dicts keyed by
strings are modelled as association lists (`List (String × _)`); a
`dict.get(k, d)` becomes `(l.lookup k).getD d`.
-/

namespace CBS

/-! ### Keyword counting (cultural_analyzer.py)

Python membership `word.lower() in content.lower()` is case-insensitive
substring containment. -/

/-- `pat.lower() in content.lower()` — case-insensitive substring test.
Lowercasing a string is lowercasing each of its characters, modelled at the
character-list level. -/
def contains_substring (content pat : String) : Bool :=
  ((content.toList.map Char.toLower).tails).any
    (fun t => (pat.toList.map Char.toLower).isPrefixOf t)

/-- `sum(1 for word in keywords if word.lower() in content.lower())`. -/
def count_keyword_matches (keywords : List String) (content : String) : ℕ :=
  (keywords.filter (fun w => contains_substring content w)).length

def high_pd_keywords : List String :=
  ["hierarchy", "authority", "boss", "leader", "executive", "management"]

def low_pd_keywords : List String :=
  ["equality", "peer", "team", "collaborative", "democratic", "accessible"]

def individualistic_keywords : List String :=
  ["individual", "personal", "self", "independence", "freedom", "choice"]

def collectivistic_keywords : List String :=
  ["community", "team", "together", "family", "group", "collective"]

def masculine_keywords : List String :=
  ["compete", "win", "achieve", "success", "performance", "ambitious"]

def feminine_keywords : List String :=
  ["caring", "quality", "cooperation", "relationships", "supportive", "nurturing"]

def high_uai_keywords : List String :=
  ["security", "certainty", "rules", "structure", "planning", "reliable"]

def low_uai_keywords : List String :=
  ["flexible", "adaptable", "innovation", "risk", "experiment", "spontaneous"]

def long_term_keywords : List String :=
  ["future", "tradition", "persistence", "patience", "investment", "sustainable"]

def short_term_keywords : List String :=
  ["immediate", "quick", "now", "instant", "current", "present"]

def indulgent_keywords : List String :=
  ["enjoy", "fun", "pleasure", "freedom", "happiness", "celebration"]

def restrained_keywords : List String :=
  ["control", "discipline", "modest", "serious", "formal", "conservative"]

/-! ### Dimension alignment (cultural_analyzer.py)

All six `_analyze_*` functions share one body, differing only in the
keyword tables; `content_tendency`, `country_tendency` and
`alignment_from_counts` capture that shared body. -/

/-- `(high_count - low_count) / max(1, high_count + low_count)`. -/
def content_tendency (high_count low_count : ℕ) : ℚ :=
  ((high_count : ℚ) - (low_count : ℚ)) / ((max 1 (high_count + low_count) : ℕ) : ℚ)

/-- `(value - 50) / 50` — normalises a 0–100 Hofstede value onto [-1, 1]. -/
def country_tendency (value : ℚ) : ℚ :=
  (value - 50) / 50

/-- `alignment = 1.0 - abs(content_tendency - country_tendency) / 2`,
followed by `return max(0.0, alignment)` (the source has no upper clamp
here). -/
def alignment_from_counts (high_count low_count : ℕ) (value : ℚ) : ℚ :=
  max 0 (1 - |content_tendency high_count low_count - country_tendency value| / 2)

/-- `_analyze_power_distance` of cultural_analyzer.py. -/
def analyze_power_distance (content : String) (pdi_value : ℚ) : ℚ :=
  alignment_from_counts (count_keyword_matches high_pd_keywords content)
    (count_keyword_matches low_pd_keywords content) pdi_value

/-- `_analyze_individualism` of cultural_analyzer.py. -/
def analyze_individualism (content : String) (idv_value : ℚ) : ℚ :=
  alignment_from_counts (count_keyword_matches individualistic_keywords content)
    (count_keyword_matches collectivistic_keywords content) idv_value

/-- `_analyze_masculinity` of cultural_analyzer.py. -/
def analyze_masculinity (content : String) (mas_value : ℚ) : ℚ :=
  alignment_from_counts (count_keyword_matches masculine_keywords content)
    (count_keyword_matches feminine_keywords content) mas_value

/-- `_analyze_uncertainty_avoidance` of cultural_analyzer.py. -/
def analyze_uncertainty_avoidance (content : String) (uai_value : ℚ) : ℚ :=
  alignment_from_counts (count_keyword_matches high_uai_keywords content)
    (count_keyword_matches low_uai_keywords content) uai_value

/-- `_analyze_long_term_orientation` of cultural_analyzer.py. -/
def analyze_long_term_orientation (content : String) (lto_value : ℚ) : ℚ :=
  alignment_from_counts (count_keyword_matches long_term_keywords content)
    (count_keyword_matches short_term_keywords content) lto_value

/-- `_analyze_indulgence` of cultural_analyzer.py. -/
def analyze_indulgence (content : String) (ivr_value : ℚ) : ℚ :=
  alignment_from_counts (count_keyword_matches indulgent_keywords content)
    (count_keyword_matches restrained_keywords content) ivr_value

/-! ### Cultural-fit aggregation and insights (cultural_analyzer.py) -/

/-- The fixed weight table of `_calculate_cultural_score`. -/
def dimension_weights : List (String × ℚ) :=
  [("power_distance", 0.20), ("individualism", 0.25), ("masculinity", 0.15),
   ("uncertainty_avoidance", 0.20), ("long_term_orientation", 0.10), ("indulgence", 0.10)]

/-- `_calculate_cultural_score`: `if not dimension_scores: return 0.0`, then
`sum(dimension_scores.get(dim, 0.5) * weight for dim, weight in weights.items())`. -/
def calculate_cultural_score (dimension_scores : List (String × ℚ)) : ℚ :=
  if dimension_scores.isEmpty then 0
  else (dimension_weights.map (fun dw => ((dimension_scores.lookup dw.1).getD 0.5) * dw.2)).sum

/-- The insight record built by `_generate_insights`.  The source renders
`strongest_alignment`/`weakest_alignment` as formatted strings
`f"{dim}: {score:.2f}"`; we keep the underlying (dimension, score) pair. -/
structure Insights where
  alignment_summary : String
  strongest_alignment : Option (String × ℚ)
  weakest_alignment : Option (String × ℚ)
  cultural_notes : List String
deriving DecidableEq, Repr

/-- `_get_cultural_notes`: one note per dimension code with value > 80 or < 20. -/
def get_cultural_notes (dimensions : List (String × ℚ)) : List String :=
  dimensions.filterMap (fun dv =>
    if dv.2 > 80 then
      some ("Very high " ++ dv.1 ++ ": Consider strong alignment with this cultural trait")
    else if dv.2 < 20 then
      some ("Very low " ++ dv.1 ++ ": Avoid assumptions related to this cultural trait")
    else none)

/-- `_generate_insights` of cultural_analyzer.py.  Python
`max(scores.keys(), key=...)` keeps the first maximal key, as does
`List.argmax`; likewise for `min`/`argmin`.  The `content` argument is
unused in the source body. -/
def generate_insights (_content : String) (dimensions : List (String × ℚ))
    (scores : List (String × ℚ)) (country : String) : Insights :=
  if scores.isEmpty then
    { alignment_summary := "", strongest_alignment := none, weakest_alignment := none,
      cultural_notes := get_cultural_notes dimensions }
  else
    let overall_score := calculate_cultural_score scores
    { alignment_summary :=
        if overall_score > 0.8 then "Excellent cultural alignment with " ++ country
        else if overall_score > 0.6 then "Good cultural alignment with " ++ country
        else "Cultural misalignment detected for " ++ country
      strongest_alignment := scores.argmax Prod.snd
      weakest_alignment := scores.argmin Prod.snd
      cultural_notes := get_cultural_notes dimensions }

/-! ### Static Hofstede table

`_load_hofstede_data` is textually identical in cultural_scorer.py and
cultural_analyzer.py; we embed it once. -/

structure HofstedeDims where
  PDI : ℚ
  IDV : ℚ
  MAS : ℚ
  UAI : ℚ
  LTO : ℚ
  IVR : ℚ
deriving DecidableEq, Repr

def hofstede_data : List (String × HofstedeDims) :=
  [("US", ⟨40, 91, 62, 46, 26, 68⟩),
   ("UK", ⟨35, 89, 66, 35, 51, 69⟩),
   ("JP", ⟨54, 46, 95, 92, 88, 42⟩),
   ("CN", ⟨80, 20, 66, 30, 87, 24⟩),
   ("DE", ⟨35, 67, 66, 65, 83, 40⟩),
   ("FR", ⟨68, 71, 43, 86, 63, 48⟩),
   ("IN", ⟨77, 48, 56, 40, 51, 26⟩),
   ("BR", ⟨69, 38, 49, 76, 44, 59⟩)]

/-! ### Bias flags (bias_detector.py) -/

/-- One bias flag.  The flag dicts built by the detector carry a subset of
these keys depending on the sub-scan; optional fields model absent keys. -/
structure BiasFlag where
  category : String
  country : Option String
  risk_score : Option ℚ
  severity : ℚ
  description : String
  cultural_context : Option String
deriving DecidableEq, Repr

/-- The detector output as consumed by the scorer: the scorer reads only
`bias_results.get("flags", [])`. -/
structure BiasResults where
  flags : List BiasFlag
deriving DecidableEq, Repr

/-- The per-country insight record of the external LLM signal; the detector
reads `insights.get("assumption_risk", 0)` and
`insights.get("assumption_description", "")`. -/
structure GeminiInsight where
  assumption_risk : Option ℚ
  assumption_description : Option String
deriving DecidableEq, Repr

/-- The external signal as consumed by `_detect_cultural_assumptions`:
`gemini_analysis.get("cultural_insights", {})`.  An absent or malformed
signal yields the empty mapping (and hence no flags). -/
structure GeminiAnalysis where
  cultural_insights : List (String × GeminiInsight)
deriving DecidableEq, Repr

/-- `_risk_to_severity`: `int(risk_score * 10)` — Python `int()` truncates
toward zero (floor for nonnegative arguments, ceiling for negative ones). -/
def risk_to_severity (risk_score : ℚ) : ℤ :=
  if 0 ≤ risk_score then ⌊risk_score * 10⌋ else ⌈risk_score * 10⌉

/-- The flag dict appended by `_detect_cultural_assumptions` for one
country above the 0.6 risk threshold. -/
def assumption_flag (country : String) (insights : GeminiInsight) : BiasFlag :=
  { category := "cultural_assumption"
    country := some country
    risk_score := some (insights.assumption_risk.getD 0)
    severity := ((risk_to_severity (insights.assumption_risk.getD 0) : ℤ) : ℚ)
    description := insights.assumption_description.getD ""
    cultural_context := none }

/-- The accumulation loop of `_detect_cultural_assumptions`. -/
def assumption_flags_of : List (String × GeminiInsight) → List BiasFlag
  | [] => []
  | p :: rest =>
      if p.2.assumption_risk.getD 0 > 0.6 then
        assumption_flag p.1 p.2 :: assumption_flags_of rest
      else assumption_flags_of rest

/-- The sub-scan result dict shape shared by the four `_detect_*` methods. -/
structure Detection where
  detected : Bool
  category : String
  flags : List BiasFlag
  patterns : List String
  severity : ℚ
deriving DecidableEq, Repr

/-- `_detect_cultural_assumptions` of bias_detector.py.  The `content`
argument is unused in the source body. -/
def detect_cultural_assumptions (_content : String) (gemini_analysis : GeminiAnalysis) :
    Detection :=
  let fs := assumption_flags_of gemini_analysis.cultural_insights
  { detected := !fs.isEmpty
    category := "cultural_assumption"
    flags := fs
    patterns := []
    severity := (fs.map (fun f => f.severity)).foldr max 0 }

/-! ### Scorer (cultural_scorer.py) -/

/-- The `cultural_analysis` dict consumed by the scorer: the scorer reads
`cultural_analysis.get("cultural_scores", {})` and membership in
`cultural_analysis.get("insights", {})`; the recommendation generator reads
`cultural_analysis.get("suggestions", {})`. -/
structure CulturalAnalysis where
  cultural_scores : List (String × ℚ)
  insights : List (String × Insights)
  suggestions : List (String × List String)
deriving DecidableEq, Repr

/-- `_calculate_bias_penalty`: 0 with no flags, else the severity-weighted
sum capped at 0.8 (`min(0.8, total_penalty)`). -/
def calculate_bias_penalty (bias_results : BiasResults) : ℚ :=
  let flags := bias_results.flags
  if flags.isEmpty then 0
  else min 0.8 ((flags.map (fun f => f.severity / 10 * 0.1)).sum)

/-- `_get_cultural_fit_score`: `cultural_scores.get(country, 0.5)`. -/
def get_cultural_fit_score (country : String) (cultural_analysis : CulturalAnalysis) : ℚ :=
  (cultural_analysis.cultural_scores.lookup country).getD 0.5

/-- `_calculate_confidence_bonus`: 0.05 for a static Hofstede row plus 0.05
for a computed cultural score. -/
def calculate_confidence_bonus (country : String) (cultural_analysis : CulturalAnalysis) : ℚ :=
  (if (hofstede_data.lookup country).isSome then (0.05 : ℚ) else 0) +
  (if (cultural_analysis.cultural_scores.lookup country).isSome then (0.05 : ℚ) else 0)

/-- `_calculate_country_score`: weighted blend of cultural fit, bias
freedom and confidence bonus, clamped to [0, 1]. The weight table
`_load_scoring_weights` gives cultural_fit 0.7, bias_freedom 0.25,
confidence_bonus 0.05. -/
def calculate_country_score (country : String) (bias_results : BiasResults)
    (cultural_analysis : CulturalAnalysis) : ℚ :=
  let bias_penalty := calculate_bias_penalty bias_results
  let cultural_fit_score := get_cultural_fit_score country cultural_analysis
  let confidence_bonus := calculate_confidence_bonus country cultural_analysis
  let base_score :=
    cultural_fit_score * 0.7 + (1 - bias_penalty) * 0.25 + confidence_bonus * 0.05
  max 0 (min 1 base_score)

/-- `_assess_data_quality`: 0.4 for a static row, 0.3 for a cultural score,
0.3 for insights, capped at 1. -/
def assess_data_quality (country : String) (cultural_analysis : CulturalAnalysis) : ℚ :=
  min 1 ((if (hofstede_data.lookup country).isSome then (0.4 : ℚ) else 0) +
    (if (cultural_analysis.cultural_scores.lookup country).isSome then (0.3 : ℚ) else 0) +
    (if (cultural_analysis.insights.lookup country).isSome then (0.3 : ℚ) else 0))

structure ConfidenceInterval where
  lower_bound : ℚ
  upper_bound : ℚ
  confidence_level : ℚ
  margin_of_error : ℚ
  data_quality : ℚ
deriving DecidableEq, Repr

/-- `_calculate_confidence_interval` of cultural_scorer.py. -/
def calculate_confidence_interval (country : String) (score : ℚ)
    (cultural_analysis : CulturalAnalysis) : ConfidenceInterval :=
  let data_quality := assess_data_quality country cultural_analysis
  let std_error : ℚ :=
    if data_quality > 0.8 then 0.05 else if data_quality > 0.6 then 0.10 else 0.15
  let margin_of_error := 1.96 * std_error
  { lower_bound := max 0 (score - margin_of_error)
    upper_bound := min 1 (score + margin_of_error)
    confidence_level := 0.95
    margin_of_error := margin_of_error
    data_quality := data_quality }

structure ScoreBreakdown where
  cultural_fit : ℚ
  bias_penalty : ℚ
  confidence_bonus : ℚ
  data_quality : ℚ
deriving DecidableEq, Repr

/-- `_get_score_breakdown` of cultural_scorer.py. -/
def get_score_breakdown (country : String) (bias_results : BiasResults)
    (cultural_analysis : CulturalAnalysis) : ScoreBreakdown :=
  { cultural_fit := get_cultural_fit_score country cultural_analysis
    bias_penalty := calculate_bias_penalty bias_results
    confidence_bonus := calculate_confidence_bonus country cultural_analysis
    data_quality := assess_data_quality country cultural_analysis }

structure AlignmentResult where
  overall_score : ℚ
  country_scores : List (String × ℚ)
  confidence : List (String × ConfidenceInterval)
  score_breakdown : List (String × ScoreBreakdown)
deriving DecidableEq, Repr

/-- `calculate_alignment` of cultural_scorer.py.  `np.mean` of the
collected per-country scores is their sum divided by their number; when the
collected list is empty, `overall_score` keeps its initial 0.0.  Nothing in
the loop can raise, so the `except` branch is dead for this embedding. -/
def calculate_alignment (bias_results : BiasResults) (cultural_analysis : CulturalAnalysis)
    (target_countries : List String) : AlignmentResult :=
  let country_scores :=
    target_countries.map (fun c => (c, calculate_country_score c bias_results cultural_analysis))
  { overall_score :=
      if country_scores.isEmpty then 0
      else ((country_scores.map Prod.snd).sum) / (country_scores.length : ℚ)
    country_scores := country_scores
    confidence := target_countries.map (fun c =>
      (c, calculate_confidence_interval c (calculate_country_score c bias_results cultural_analysis)
        cultural_analysis))
    score_breakdown := target_countries.map (fun c =>
      (c, get_score_breakdown c bias_results cultural_analysis)) }

/-! ### Recommendations and risk level (app.py) -/

structure Recommendation where
  country : String
  priority : String
  rec_type : String
  message : String
  specific_suggestions : List String
deriving DecidableEq, Repr

/-- `_generate_recommendations` of app.py: per requested country, a
"high"/"cultural_adaptation" item below 0.6, a "medium"/"minor_adjustments"
item below 0.8, nothing at or above 0.8; scores are read from
`alignment_scores.get('country_scores', {}).get(country, 0)`. -/
def generate_recommendations (alignment_scores : AlignmentResult)
    (cultural_analysis : CulturalAnalysis) (target_countries : List String) :
    List Recommendation :=
  target_countries.filterMap (fun country =>
    let score := (alignment_scores.country_scores.lookup country).getD 0
    if score < 0.6 then
      some { country := country, priority := "high", rec_type := "cultural_adaptation"
             message := "Consider significant cultural adaptation for " ++ country
             specific_suggestions := (cultural_analysis.suggestions.lookup country).getD [] }
    else if score < 0.8 then
      some { country := country, priority := "medium", rec_type := "minor_adjustments"
             message := "Minor cultural adjustments recommended for " ++ country
             specific_suggestions := (cultural_analysis.suggestions.lookup country).getD [] }
    else none)

/-- `_calculate_risk_level` of app.py. -/
def calculate_risk_level (alignment_scores : AlignmentResult) : String :=
  let overall_score := alignment_scores.overall_score
  if overall_score ≥ 0.8 then "low"
  else if overall_score ≥ 0.6 then "medium"
  else "high"

/-! ### Concrete fixtures used by witnesses and scenario theorems -/

/-- A single severity-8 flag (spec scenario 3). -/
def scenario3_bias : BiasResults :=
  ⟨[{ category := "stereotype", country := none, risk_score := none,
      severity := 8, description := "Potentially offensive cultural descriptors",
      cultural_context := none }]⟩

/-- A cultural analysis giving the US a cultural fit of 0.7 (spec scenario 3). -/
def scenario3_analysis : CulturalAnalysis :=
  { cultural_scores := [("US", 0.7)], insights := [], suggestions := [] }

/-- The empty cultural analysis (no country analysed). -/
def empty_analysis : CulturalAnalysis :=
  { cultural_scores := [], insights := [], suggestions := [] }

/-- Six dimension scores of exactly 0.8 each. -/
def six_scores_08 : List (String × ℚ) :=
  [("power_distance", 0.8), ("individualism", 0.8), ("masculinity", 0.8),
   ("uncertainty_avoidance", 0.8), ("long_term_orientation", 0.8), ("indulgence", 0.8)]

/-- An external signal reporting assumption risk 0.67 for the US. -/
def risk067_signal : GeminiAnalysis :=
  ⟨[("US", ⟨some 0.67, some "Assumes US norms"⟩)]⟩

/-- An external signal with one country above and one below the 0.6 risk
threshold. -/
def mixed_signal : GeminiAnalysis :=
  ⟨[("US", ⟨some 0.9, some "Strong US-centric assumptions"⟩), ("JP", ⟨some 0.5, none⟩)]⟩

/-! ### Helper lemmas -/

/-- A successful association-list lookup returns a pair of the list. -/
theorem mem_of_lookup_eq_some {β : Type} {l : List (String × β)} {k : String} {v : β}
    (h : l.lookup k = some v) : (k, v) ∈ l := by
  obtain ⟨l₁, l₂, rfl, -⟩ := List.lookup_eq_some_iff.mp h
  simp

/-- The content tendency is a ratio bounded by 1 in absolute value. -/
theorem abs_content_tendency_le_one (hc lc : ℕ) : |content_tendency hc lc| ≤ 1 := by
  unfold content_tendency
  have hden : (1 : ℚ) ≤ ((max 1 (hc + lc) : ℕ) : ℚ) := by
    exact_mod_cast Nat.le_max_left 1 (hc + lc)
  have hc0 : (0 : ℚ) ≤ (hc : ℚ) := Nat.cast_nonneg hc
  have lc0 : (0 : ℚ) ≤ (lc : ℚ) := Nat.cast_nonneg lc
  have hsum : ((hc : ℚ) + (lc : ℚ)) ≤ ((max 1 (hc + lc) : ℕ) : ℚ) := by
    have := Nat.le_max_right 1 (hc + lc)
    push_cast
    exact_mod_cast this
  rw [abs_div, abs_of_nonneg (by linarith : (0 : ℚ) ≤ ((max 1 (hc + lc) : ℕ) : ℚ)),
    div_le_one (by linarith)]
  rw [abs_sub_le_iff]
  constructor <;> linarith

/-- The country tendency of a 0–100 value is bounded by 1 in absolute value. -/
theorem abs_country_tendency_le_one {v : ℚ} (h0 : 0 ≤ v) (h100 : v ≤ 100) :
    |country_tendency v| ≤ 1 := by
  unfold country_tendency
  rw [abs_div, abs_of_nonneg (by norm_num : (0 : ℚ) ≤ 50), div_le_one (by norm_num)]
  rw [abs_sub_le_iff]
  constructor <;> linarith

/-- C1: for every input text and every country dimension value in [0,100], each
of the six dimension-alignment computations returns
`1 − |contentTendency − countryTendency| / 2` (the `max 0` clamp of the source
is never active); the result lies in [0,1], equals exactly 1 when the two
tendencies are equal, and equals exactly 0 when the tendencies are at opposite
extremes (+1 and −1). -/
theorem C1_dimension_alignment (content : String) (v : ℚ) (h0 : 0 ≤ v) (h100 : v ≤ 100) :
    (∀ hc lc : ℕ,
      alignment_from_counts hc lc v
          = 1 - |content_tendency hc lc - country_tendency v| / 2 ∧
      0 ≤ alignment_from_counts hc lc v ∧ alignment_from_counts hc lc v ≤ 1 ∧
      (content_tendency hc lc = country_tendency v → alignment_from_counts hc lc v = 1) ∧
      ((content_tendency hc lc = 1 ∧ country_tendency v = -1) ∨
          (content_tendency hc lc = -1 ∧ country_tendency v = 1) →
        alignment_from_counts hc lc v = 0)) ∧
    analyze_power_distance content v
      = alignment_from_counts (count_keyword_matches high_pd_keywords content)
          (count_keyword_matches low_pd_keywords content) v ∧
    analyze_individualism content v
      = alignment_from_counts (count_keyword_matches individualistic_keywords content)
          (count_keyword_matches collectivistic_keywords content) v ∧
    analyze_masculinity content v
      = alignment_from_counts (count_keyword_matches masculine_keywords content)
          (count_keyword_matches feminine_keywords content) v ∧
    analyze_uncertainty_avoidance content v
      = alignment_from_counts (count_keyword_matches high_uai_keywords content)
          (count_keyword_matches low_uai_keywords content) v ∧
    analyze_long_term_orientation content v
      = alignment_from_counts (count_keyword_matches long_term_keywords content)
          (count_keyword_matches short_term_keywords content) v ∧
    analyze_indulgence content v
      = alignment_from_counts (count_keyword_matches indulgent_keywords content)
          (count_keyword_matches restrained_keywords content) v := by
  refine ⟨fun hc lc => ?_, rfl, rfl, rfl, rfl, rfl, rfl⟩
  have hct : |content_tendency hc lc| ≤ 1 := abs_content_tendency_le_one hc lc
  have hcnt : |country_tendency v| ≤ 1 := abs_country_tendency_le_one h0 h100
  have hdist : |content_tendency hc lc - country_tendency v| ≤ 2 := by
    calc |content_tendency hc lc - country_tendency v|
        ≤ |content_tendency hc lc| + |country_tendency v| := abs_sub _ _
      _ ≤ 2 := by linarith
  have hdist0 : 0 ≤ |content_tendency hc lc - country_tendency v| := abs_nonneg _
  have hval : alignment_from_counts hc lc v
      = 1 - |content_tendency hc lc - country_tendency v| / 2 := by
    unfold alignment_from_counts
    exact max_eq_right (by linarith)
  refine ⟨hval, by rw [hval]; linarith, by rw [hval]; linarith, ?_, ?_⟩
  · intro heq
    rw [hval, heq, sub_self, abs_zero]
    norm_num
  · rintro (⟨h1, h2⟩ | ⟨h1, h2⟩) <;> rw [hval, h1, h2] <;> norm_num

/-- Witness for C1 at the empty text and the US power-distance value 40
(spec scenario 1: no keyword matches, country tendency −0.2, alignment 0.9). -/
theorem C1_dimension_alignment_witness :
    analyze_power_distance "" 40 = 0.9 ∧
    0 ≤ analyze_power_distance "" 40 ∧ analyze_power_distance "" 40 ≤ 1 := by
  obtain ⟨hmain, hpd, -⟩ := C1_dimension_alignment "" 40 (by norm_num) (by norm_num)
  obtain ⟨hval, hlo, hhi, -⟩ := hmain 0 0
  have hhc : count_keyword_matches high_pd_keywords "" = 0 := by decide
  have hlc : count_keyword_matches low_pd_keywords "" = 0 := by decide
  rw [hhc, hlc] at hpd
  have hct : content_tendency 0 0 = 0 := by norm_num [content_tendency]
  have hcnt : country_tendency 40 = -(0.2 : ℚ) := by norm_num [country_tendency]
  have habs : |content_tendency 0 0 - country_tendency 40| = 0.2 := by
    rw [hct, hcnt, zero_sub, neg_neg, abs_of_nonneg]
    norm_num
  refine ⟨?_, hpd ▸ hlo, hpd ▸ hhi⟩
  rw [hpd, hval, habs]
  norm_num

/-- The bias penalty in closed form: the severity-weighted sum capped at 0.8,
also for the empty flag list (where the source returns 0 early). -/
theorem bias_penalty_eq (bias_results : BiasResults) :
    calculate_bias_penalty bias_results
      = min 0.8 ((bias_results.flags.map (fun f => f.severity / 10 * 0.1)).sum) := by
  unfold calculate_bias_penalty
  cases h : bias_results.flags with
  | nil => norm_num
  | cons f fs => simp

/-- The severity-weighted sum is monotone under a pointwise severity increase. -/
theorem penalty_sum_mono {fs₁ fs₂ : List BiasFlag}
    (h : List.Forall₂ (fun a b => a.severity ≤ b.severity) fs₁ fs₂) :
    ((fs₁.map (fun f => f.severity / 10 * 0.1)).sum)
      ≤ ((fs₂.map (fun f => f.severity / 10 * 0.1)).sum) := by
  induction h with
  | nil => exact le_rfl
  | @cons a b l₁ l₂ hab _ ih =>
      simp only [List.map_cons, List.sum_cons]
      have h1 : a.severity / 10 * 0.1 ≤ b.severity / 10 * 0.1 := by
        have hm : a.severity * (1 / 100) ≤ b.severity * (1 / 100) :=
          mul_le_mul_of_nonneg_right hab (by norm_num)
        calc a.severity / 10 * 0.1 = a.severity * (1 / 100) := by ring
          _ ≤ b.severity * (1 / 100) := hm
          _ = b.severity / 10 * 0.1 := by ring
      linarith

/-- C2: the bias penalty equals `min(0.8, Σ (severity/10) × 0.1)` over all
flags; it is monotone under appending a (nonnegative-severity) flag and under
any pointwise severity increase, it never exceeds 0.8, and the per-country
score breakdown reports the same penalty for every country of a request. -/
theorem C2_bias_penalty :
    (∀ bias_results : BiasResults,
      calculate_bias_penalty bias_results
        = min 0.8 ((bias_results.flags.map (fun f => f.severity / 10 * 0.1)).sum)) ∧
    (∀ (fs : List BiasFlag) (f : BiasFlag), 0 ≤ f.severity →
      calculate_bias_penalty ⟨fs⟩ ≤ calculate_bias_penalty ⟨fs ++ [f]⟩) ∧
    (∀ fs₁ fs₂ : List BiasFlag,
      List.Forall₂ (fun a b => a.severity ≤ b.severity) fs₁ fs₂ →
      calculate_bias_penalty ⟨fs₁⟩ ≤ calculate_bias_penalty ⟨fs₂⟩) ∧
    (∀ bias_results : BiasResults, calculate_bias_penalty bias_results ≤ 0.8) ∧
    (∀ (bias_results : BiasResults) (ca : CulturalAnalysis) (c₁ c₂ : String),
      (get_score_breakdown c₁ bias_results ca).bias_penalty
        = (get_score_breakdown c₂ bias_results ca).bias_penalty) := by
  refine ⟨bias_penalty_eq, ?_, ?_, ?_, ?_⟩
  · intro fs f hf
    rw [bias_penalty_eq, bias_penalty_eq]
    apply min_le_min le_rfl
    simp only [List.map_append, List.sum_append, List.map_cons, List.map_nil, List.sum_cons,
      List.sum_nil]
    have : 0 ≤ f.severity / 10 * 0.1 := by positivity
    linarith
  · intro fs₁ fs₂ h
    rw [bias_penalty_eq, bias_penalty_eq]
    exact min_le_min le_rfl (penalty_sum_mono h)
  · intro bias_results
    rw [bias_penalty_eq]
    exact min_le_left _ _
  · intro bias_results ca c₁ c₂
    rfl

/-- Witness for C2: appending a severity-5 flag to one severity-8 flag does
not decrease the penalty, and the penalty stays at most 0.8. -/
theorem C2_bias_penalty_witness :
    calculate_bias_penalty
        ⟨[{ category := "stereotype", country := none, risk_score := none,
            severity := 8, description := "d", cultural_context := none }]⟩
      ≤ calculate_bias_penalty
        ⟨[{ category := "stereotype", country := none, risk_score := none,
            severity := 8, description := "d", cultural_context := none },
          { category := "linguistic", country := none, risk_score := none,
            severity := 5, description := "e", cultural_context := some "c" }]⟩ ∧
    calculate_bias_penalty
        ⟨[{ category := "stereotype", country := none, risk_score := none,
            severity := 8, description := "d", cultural_context := none }]⟩ ≤ 0.8 := by
  refine ⟨C2_bias_penalty.2.1 _ _ (by norm_num), C2_bias_penalty.2.2.2.1 _⟩

/-- One severity-8 flag yields a bias penalty of exactly 0.08. -/
theorem bias_penalty_scenario3 : calculate_bias_penalty scenario3_bias = 0.08 := by
  norm_num [calculate_bias_penalty, scenario3_bias]

/-- The US has a Hofstede row and a scenario-3 cultural score, so the
confidence bonus is 0.10. -/
theorem confidence_bonus_scenario3 :
    calculate_confidence_bonus "US" scenario3_analysis = 0.10 := by
  have h1 : hofstede_data.lookup "US" = some ⟨40, 91, 62, 46, 26, 68⟩ := rfl
  have h2 : scenario3_analysis.cultural_scores.lookup "US" = some 0.7 := rfl
  rw [calculate_confidence_bonus, h1, h2]
  norm_num

/-- The scenario-3 cultural fit for the US is the stored 0.7. -/
theorem cultural_fit_scenario3 : get_cultural_fit_score "US" scenario3_analysis = 0.7 := by
  have h2 : scenario3_analysis.cultural_scores.lookup "US" = some 0.7 := rfl
  rw [get_cultural_fit_score, h2]
  rfl

/-- The scenario-3 final score for the US is exactly 0.725. -/
theorem country_score_scenario3 :
    calculate_country_score "US" scenario3_bias scenario3_analysis = 0.725 := by
  rw [calculate_country_score, bias_penalty_scenario3, confidence_bonus_scenario3,
    cultural_fit_scenario3]
  norm_num

/-- C3: with exactly one severity-8 flag and a cultural analysis giving the US
culturalFit 0.7 (hence confidenceBonus 0.10), the scorer computes
biasPenalty 0.08 and finalScore 0.725, and the recommendation generator emits a
"medium"-priority "minor_adjustments" recommendation for the US. -/
theorem C3_scenario_medium_priority :
    calculate_bias_penalty scenario3_bias = 0.08 ∧
    calculate_confidence_bonus "US" scenario3_analysis = 0.10 ∧
    calculate_country_score "US" scenario3_bias scenario3_analysis = 0.725 ∧
    ((generate_recommendations (calculate_alignment scenario3_bias scenario3_analysis ["US"])
        scenario3_analysis ["US"]).map (fun r => (r.country, r.priority, r.rec_type)))
      = [("US", "medium", "minor_adjustments")] := by
  refine ⟨bias_penalty_scenario3, confidence_bonus_scenario3, country_score_scenario3, ?_⟩
  have hca : (calculate_alignment scenario3_bias scenario3_analysis ["US"]).country_scores
      = [("US", 0.725)] := by
    simp [calculate_alignment, country_score_scenario3]
  simp only [generate_recommendations, hca, List.filterMap_cons, List.filterMap_nil,
    List.lookup_cons_self, Option.getD_some]
  norm_num

/-- A looked-up dimension score, defaulted to 0.5, stays in [0,1] when all
stored scores are in [0,1]. -/
theorem getD_half_bounds {ds : List (String × ℚ)} (h : ∀ p ∈ ds, 0 ≤ p.2 ∧ p.2 ≤ 1)
    (k : String) : 0 ≤ (ds.lookup k).getD 0.5 ∧ (ds.lookup k).getD 0.5 ≤ 1 := by
  cases hl : ds.lookup k with
  | none => norm_num
  | some v =>
      have hv := h _ (mem_of_lookup_eq_some hl)
      simpa using hv

/-- C4 counterexample: the claim requires the empty mapping to get the
all-defaults weighted sum 0.5, but `_calculate_cultural_score` returns 0.0 for
the empty mapping through its early `if not dimension_scores` branch. -/
theorem C4_cultural_score_counterexample :
    calculate_cultural_score [] = 0 ∧
    0.5 * (0.20 : ℚ) + 0.5 * 0.25 + 0.5 * 0.15 + 0.5 * 0.20 + 0.5 * 0.10 + 0.5 * 0.10
      = 0.5 ∧
    calculate_cultural_score [] ≠ 0.5 := by
  refine ⟨by norm_num [calculate_cultural_score], by norm_num, by norm_num [calculate_cultural_score]⟩

/-- C4 (amended): for every non-empty mapping the cultural-fit aggregation
returns the weighted sum with weights 0.20/0.25/0.15/0.20/0.10/0.10,
substituting 0.5 for each missing dimension; the empty mapping returns 0.0
instead; for per-dimension inputs in [0,1] the result lies in [0,1]; the
weights sum to 1. -/
theorem C4_cultural_score_weighted_sum (ds : List (String × ℚ)) :
    (ds ≠ [] → calculate_cultural_score ds
      = (ds.lookup "power_distance").getD 0.5 * 0.20
        + (ds.lookup "individualism").getD 0.5 * 0.25
        + (ds.lookup "masculinity").getD 0.5 * 0.15
        + (ds.lookup "uncertainty_avoidance").getD 0.5 * 0.20
        + (ds.lookup "long_term_orientation").getD 0.5 * 0.10
        + (ds.lookup "indulgence").getD 0.5 * 0.10) ∧
    calculate_cultural_score [] = 0 ∧
    ((∀ p ∈ ds, 0 ≤ p.2 ∧ p.2 ≤ 1) →
      0 ≤ calculate_cultural_score ds ∧ calculate_cultural_score ds ≤ 1) ∧
    (dimension_weights.map Prod.snd).sum = 1 := by
  have heq : ds ≠ [] → calculate_cultural_score ds
      = (ds.lookup "power_distance").getD 0.5 * 0.20
        + (ds.lookup "individualism").getD 0.5 * 0.25
        + (ds.lookup "masculinity").getD 0.5 * 0.15
        + (ds.lookup "uncertainty_avoidance").getD 0.5 * 0.20
        + (ds.lookup "long_term_orientation").getD 0.5 * 0.10
        + (ds.lookup "indulgence").getD 0.5 * 0.10 := by
    intro h
    have he : ds.isEmpty = false := by
      cases ds with
      | nil => exact absurd rfl h
      | cons p l => rfl
    rw [calculate_cultural_score, he]
    simp only [Bool.false_eq_true, if_false, dimension_weights, List.map_cons, List.map_nil,
      List.sum_cons, List.sum_nil]
    ring
  refine ⟨heq, by norm_num [calculate_cultural_score], ?_, by norm_num [dimension_weights]⟩
  intro hb
  cases hds : ds with
  | nil => norm_num [calculate_cultural_score]
  | cons p l =>
      rw [← hds]
      rw [heq (by rw [hds]; exact List.cons_ne_nil p l)]
      obtain ⟨a1, b1⟩ := getD_half_bounds hb "power_distance"
      obtain ⟨a2, b2⟩ := getD_half_bounds hb "individualism"
      obtain ⟨a3, b3⟩ := getD_half_bounds hb "masculinity"
      obtain ⟨a4, b4⟩ := getD_half_bounds hb "uncertainty_avoidance"
      obtain ⟨a5, b5⟩ := getD_half_bounds hb "long_term_orientation"
      obtain ⟨a6, b6⟩ := getD_half_bounds hb "indulgence"
      constructor <;> nlinarith

/-- Witness for C4: six dimension scores of 0.8 each aggregate to exactly 0.8,
inside [0,1]. -/
theorem C4_cultural_score_witness :
    calculate_cultural_score six_scores_08 = 0.8 ∧
    0 ≤ calculate_cultural_score six_scores_08 ∧ calculate_cultural_score six_scores_08 ≤ 1 := by
  obtain ⟨heq, -, hbnd, -⟩ := C4_cultural_score_weighted_sum six_scores_08
  have h1 : six_scores_08.lookup "power_distance" = some 0.8 := rfl
  have h2 : six_scores_08.lookup "individualism" = some 0.8 := rfl
  have h3 : six_scores_08.lookup "masculinity" = some 0.8 := rfl
  have h4 : six_scores_08.lookup "uncertainty_avoidance" = some 0.8 := rfl
  have h5 : six_scores_08.lookup "long_term_orientation" = some 0.8 := rfl
  have h6 : six_scores_08.lookup "indulgence" = some 0.8 := rfl
  have hne : six_scores_08 ≠ [] := by
    simp [six_scores_08]
  refine ⟨?_, hbnd ?_⟩
  · rw [heq hne, h1, h2, h3, h4, h5, h6]
    norm_num
  · intro p hp
    simp only [six_scores_08, List.mem_cons, List.not_mem_nil, or_false] at hp
    rcases hp with h | h | h | h | h | h <;> rw [h] <;> norm_num

/-- Two entries of an association list with duplicate-free keys and equal keys
are equal. -/
theorem eq_of_mem_of_nodup_keys {β : Type} {l : List (String × β)}
    (hnd : (l.map Prod.fst).Nodup) {p q : String × β}
    (hp : p ∈ l) (hq : q ∈ l) (h : p.1 = q.1) : p = q := by
  induction l with
  | nil => cases hp
  | cons a t ih =>
      simp only [List.map_cons, List.nodup_cons] at hnd
      obtain ⟨ha, ht⟩ := hnd
      rw [List.mem_cons] at hp hq
      rcases hp with hp | hp <;> rcases hq with hq | hq
      · rw [hp, hq]
      · exfalso
        apply ha
        rw [hp] at h
        rw [h]
        exact List.mem_map_of_mem Prod.fst hq
      · exfalso
        apply ha
        rw [hq] at h
        rw [← h]
        exact List.mem_map_of_mem Prod.fst hp
      · exact ih ht hp hq

/-- The flag-accumulation loop of the cultural-assumption scan, in
`filterMap` form. -/
theorem assumption_flags_of_eq_filterMap (l : List (String × GeminiInsight)) :
    assumption_flags_of l = l.filterMap (fun p =>
      if p.2.assumption_risk.getD 0 > 0.6 then some (assumption_flag p.1 p.2) else none) := by
  induction l with
  | nil => rfl
  | cons p t ih =>
      by_cases h : p.2.assumption_risk.getD 0 > 0.6
      · simp [assumption_flags_of, List.filterMap_cons, h, ih]
      · simp [assumption_flags_of, List.filterMap_cons, h, ih]

/-- C5 counterexample: for assumption risk 0.67 the code emits severity
`int(6.7) = 6` (truncation), while the claim's `round(6.7) = 7`. -/
theorem C5_assumption_severity_counterexample :
    ((detect_cultural_assumptions "" risk067_signal).flags.map (fun f => f.severity))
      = [(6 : ℚ)] ∧
    round ((0.67 : ℚ) * 10) = 7 ∧
    ((detect_cultural_assumptions "" risk067_signal).flags.map (fun f => f.severity))
      ≠ [(7 : ℚ)] := by
  have hsev : risk_to_severity 0.67 = 6 := by
    rw [risk_to_severity, if_pos (by norm_num), Int.floor_eq_iff]
    norm_num
  have hflags : (detect_cultural_assumptions "" risk067_signal).flags
      = [assumption_flag "US" ⟨some 0.67, some "Assumes US norms"⟩] := by
    show assumption_flags_of risk067_signal.cultural_insights = _
    rw [risk067_signal]
    rw [assumption_flags_of, if_pos (by norm_num)]
    rfl
  refine ⟨?_, ?_, ?_⟩
  · rw [hflags]
    simp [assumption_flag, hsev]
  · rw [round_eq, Int.floor_eq_iff]
    norm_num
  · rw [hflags]
    simp only [List.map_cons, List.map_nil, assumption_flag, Option.getD_some, hsev]
    intro hcon
    rw [List.cons.injEq] at hcon
    have h6 := hcon.1
    norm_num at h6

/-- The cultural-assumption scan emits one flag per entry above the risk
threshold. -/
theorem assumption_flags_of_length (l : List (String × GeminiInsight)) :
    (assumption_flags_of l).length
      = (l.filter (fun p => p.2.assumption_risk.getD 0 > 0.6)).length := by
  induction l with
  | nil => rfl
  | cons p t ih =>
      by_cases h : p.2.assumption_risk.getD 0 > 0.6
      · simp [assumption_flags_of, List.filter_cons, h, ih]
      · simp [assumption_flags_of, List.filter_cons, h, ih]

/-- C5 (amended): the cultural-assumption sub-scan emits exactly one flag per
external-signal entry whose assumption_risk exceeds 0.6, carrying the
country, the provider's description, and severity `int(risk × 10)`
(truncation, not rounding); entries at or below 0.6 produce no flag; an
absent or malformed signal (the empty mapping) produces no flags and no
failure. -/
theorem C5_assumption_scan_amended (content : String) (g : GeminiAnalysis) :
    (detect_cultural_assumptions content g).flags
      = g.cultural_insights.filterMap (fun p =>
          if p.2.assumption_risk.getD 0 > 0.6 then some (assumption_flag p.1 p.2) else none) ∧
    (detect_cultural_assumptions content g).flags.length
      = (g.cultural_insights.filter (fun p => p.2.assumption_risk.getD 0 > 0.6)).length ∧
    (∀ f ∈ (detect_cultural_assumptions content g).flags, ∃ p ∈ g.cultural_insights,
        p.2.assumption_risk.getD 0 > 0.6 ∧ f.country = some p.1 ∧
        f.severity = ((risk_to_severity (p.2.assumption_risk.getD 0) : ℤ) : ℚ) ∧
        f.description = p.2.assumption_description.getD "") ∧
    (∀ p ∈ g.cultural_insights, p.2.assumption_risk.getD 0 > 0.6 →
        assumption_flag p.1 p.2 ∈ (detect_cultural_assumptions content g).flags) ∧
    ((g.cultural_insights.map Prod.fst).Nodup →
      ∀ p ∈ g.cultural_insights, ¬(p.2.assumption_risk.getD 0 > 0.6) →
      ∀ f ∈ (detect_cultural_assumptions content g).flags, f.country ≠ some p.1) ∧
    (g.cultural_insights = [] →
      (detect_cultural_assumptions content g).flags = [] ∧
      (detect_cultural_assumptions content g).detected = false) := by
  have hflags : (detect_cultural_assumptions content g).flags
      = assumption_flags_of g.cultural_insights := rfl
  have hfm := assumption_flags_of_eq_filterMap g.cultural_insights
  have hex : ∀ f ∈ (detect_cultural_assumptions content g).flags, ∃ p ∈ g.cultural_insights,
      p.2.assumption_risk.getD 0 > 0.6 ∧ f.country = some p.1 ∧
      f.severity = ((risk_to_severity (p.2.assumption_risk.getD 0) : ℤ) : ℚ) ∧
      f.description = p.2.assumption_description.getD "" := by
    intro f hf
    rw [hflags, hfm, List.mem_filterMap] at hf
    obtain ⟨p, hp, hif⟩ := hf
    by_cases h : p.2.assumption_risk.getD 0 > 0.6
    · rw [if_pos h] at hif
      obtain rfl := Option.some.inj hif
      exact ⟨p, hp, h, rfl, rfl, rfl⟩
    · rw [if_neg h] at hif
      cases hif
  refine ⟨hflags.trans hfm, hflags ▸ assumption_flags_of_length _, hex, ?_, ?_, ?_⟩
  · intro p hp h
    rw [hflags, hfm, List.mem_filterMap]
    exact ⟨p, hp, by rw [if_pos h]⟩
  · intro hnd p hp hple f hf hcon
    obtain ⟨q, hq, hqrisk, hfc, -, -⟩ := hex f hf
    rw [hfc] at hcon
    have hqp : q = p := eq_of_mem_of_nodup_keys hnd hq hp (Option.some.inj hcon)
    rw [hqp] at hqrisk
    exact hple hqrisk
  · intro h
    constructor
    · rw [hflags, h]
      rfl
    · show (!(assumption_flags_of g.cultural_insights).isEmpty) = false
      rw [h]
      rfl

/-- Witness for C5: with US at risk 0.9 and JP at risk 0.5, the scan emits
exactly one flag, it is the US flag, and no flag names JP. -/
theorem C5_assumption_scan_witness :
    (detect_cultural_assumptions "" mixed_signal).flags.length = 1 ∧
    assumption_flag "US" ⟨some 0.9, some "Strong US-centric assumptions"⟩
      ∈ (detect_cultural_assumptions "" mixed_signal).flags ∧
    (∀ f ∈ (detect_cultural_assumptions "" mixed_signal).flags, f.country ≠ some "JP") := by
  obtain ⟨-, hlen, -, hmem, hnone, -⟩ := C5_assumption_scan_amended "" mixed_signal
  refine ⟨?_, ?_, ?_⟩
  · rw [hlen]
    rw [show mixed_signal.cultural_insights
        = [("US", ⟨some 0.9, some "Strong US-centric assumptions"⟩), ("JP", ⟨some 0.5, none⟩)]
      from rfl]
    rw [List.filter_cons, List.filter_cons]
    norm_num
  · exact hmem ("US", ⟨some 0.9, some "Strong US-centric assumptions"⟩)
      (by rw [show mixed_signal.cultural_insights
          = [("US", ⟨some 0.9, some "Strong US-centric assumptions"⟩), ("JP", ⟨some 0.5, none⟩)]
        from rfl]; exact List.mem_cons_self _ _)
      (by norm_num)
  · intro f hf
    refine hnone ?_ ("JP", ⟨some 0.5, none⟩) ?_ (by norm_num) f hf
    · rw [show mixed_signal.cultural_insights.map Prod.fst = ["US", "JP"] from rfl]
      decide
    · rw [show mixed_signal.cultural_insights
          = [("US", ⟨some 0.9, some "Strong US-centric assumptions"⟩), ("JP", ⟨some 0.5, none⟩)]
        from rfl]
      exact List.mem_cons_of_mem _ (List.mem_cons_self _ _)

/-- C6: the confidence interval uses standard error 0.05/0.10/0.15 by data
quality tier, margin 1.96 × stdError, bounds clamped to [0,1] independently;
for a score in [0,1] the bounds satisfy
0 ≤ lower ≤ score ≤ upper ≤ 1, and a side is clamped only when its unclamped
value leaves [0,1]. -/
theorem C6_confidence_interval (country : String) (score : ℚ) (ca : CulturalAnalysis)
    (h0 : 0 ≤ score) (h1 : score ≤ 1) :
    (calculate_confidence_interval country score ca).margin_of_error
      = 1.96 * (if assess_data_quality country ca > 0.8 then (0.05 : ℚ)
          else if assess_data_quality country ca > 0.6 then 0.10 else 0.15) ∧
    (calculate_confidence_interval country score ca).lower_bound
      = max 0 (score - (calculate_confidence_interval country score ca).margin_of_error) ∧
    (calculate_confidence_interval country score ca).upper_bound
      = min 1 (score + (calculate_confidence_interval country score ca).margin_of_error) ∧
    0 ≤ (calculate_confidence_interval country score ca).lower_bound ∧
    (calculate_confidence_interval country score ca).lower_bound ≤ score ∧
    score ≤ (calculate_confidence_interval country score ca).upper_bound ∧
    (calculate_confidence_interval country score ca).upper_bound ≤ 1 ∧
    (0 ≤ score - (calculate_confidence_interval country score ca).margin_of_error →
      (calculate_confidence_interval country score ca).lower_bound
        = score - (calculate_confidence_interval country score ca).margin_of_error) ∧
    (score + (calculate_confidence_interval country score ca).margin_of_error ≤ 1 →
      (calculate_confidence_interval country score ca).upper_bound
        = score + (calculate_confidence_interval country score ca).margin_of_error) := by
  have hm : (calculate_confidence_interval country score ca).margin_of_error
      = 1.96 * (if assess_data_quality country ca > 0.8 then (0.05 : ℚ)
          else if assess_data_quality country ca > 0.6 then 0.10 else 0.15) := rfl
  have hlow : (calculate_confidence_interval country score ca).lower_bound
      = max 0 (score - (calculate_confidence_interval country score ca).margin_of_error) := rfl
  have hupp : (calculate_confidence_interval country score ca).upper_bound
      = min 1 (score + (calculate_confidence_interval country score ca).margin_of_error) := rfl
  have hmpos : 0 < (calculate_confidence_interval country score ca).margin_of_error := by
    rw [hm]
    split_ifs <;> norm_num
  refine ⟨hm, hlow, hupp, ?_, ?_, ?_, ?_, ?_, ?_⟩
  · rw [hlow]
    exact le_max_left _ _
  · rw [hlow]
    exact max_le h0 (by linarith)
  · rw [hupp]
    exact le_min h1 (by linarith)
  · rw [hupp]
    exact min_le_left _ _
  · intro h
    rw [hlow]
    exact max_eq_right h
  · intro h
    rw [hupp]
    exact min_eq_right h

/-- Witness for C6 at score 0.97 with no data for the country (std_error
0.15): the interval is asymmetric — lower bound 0.676, upper bound clamped
to 1. -/
theorem C6_confidence_interval_witness :
    (calculate_confidence_interval "ZZ" 0.97 empty_analysis).margin_of_error = 0.294 ∧
    (calculate_confidence_interval "ZZ" 0.97 empty_analysis).lower_bound = 0.676 ∧
    (calculate_confidence_interval "ZZ" 0.97 empty_analysis).upper_bound = 1 := by
  obtain ⟨hm, -, hupp, -, -, -, -, hcl, -⟩ :=
    C6_confidence_interval "ZZ" 0.97 empty_analysis (by norm_num) (by norm_num)
  have hdq : assess_data_quality "ZZ" empty_analysis = 0 := by
    have ha : hofstede_data.lookup "ZZ" = none := rfl
    have hb : empty_analysis.cultural_scores.lookup "ZZ" = none := rfl
    have hc : empty_analysis.insights.lookup "ZZ" = none := rfl
    rw [assess_data_quality, ha, hb, hc]
    norm_num
  have hm' : (calculate_confidence_interval "ZZ" 0.97 empty_analysis).margin_of_error
      = 0.294 := by
    rw [hm, hdq]
    norm_num
  refine ⟨hm', ?_, ?_⟩
  · rw [hcl (by rw [hm']; norm_num), hm']
    norm_num
  · rw [hupp, hm', show (0.97 : ℚ) + 0.294 = 1.264 by norm_num]
    exact min_eq_left (by norm_num)

/-- C7: the alignment calculation returns `overall_score` equal to the
arithmetic mean of the per-country final scores, and 0.0 for an empty country
list, returning normally in both cases. -/
theorem C7_overall_score_mean (bias_results : BiasResults) (ca : CulturalAnalysis)
    (target_countries : List String) :
    (target_countries = [] →
      (calculate_alignment bias_results ca target_countries).overall_score = 0) ∧
    (target_countries ≠ [] →
      (calculate_alignment bias_results ca target_countries).overall_score
        = ((target_countries.map (fun c => calculate_country_score c bias_results ca)).sum)
            / (target_countries.length : ℚ)) ∧
    (calculate_alignment bias_results ca target_countries).country_scores
      = target_countries.map (fun c => (c, calculate_country_score c bias_results ca)) := by
  refine ⟨?_, ?_, rfl⟩
  · intro h
    rw [h]
    rfl
  · intro h
    have he : (target_countries.map
        (fun c => (c, calculate_country_score c bias_results ca))).isEmpty = false := by
      cases target_countries with
      | nil => exact absurd rfl h
      | cons c t => rfl
    show (if _ then (0 : ℚ) else _) = _
    rw [he]
    simp only [Bool.false_eq_true, if_false, List.map_map, List.length_map]
    rfl

/-- Witness for C7: the empty request scores 0, and a one-country request
averages to that country's final score 0.725. -/
theorem C7_overall_score_mean_witness :
    (calculate_alignment scenario3_bias scenario3_analysis []).overall_score = 0 ∧
    (calculate_alignment scenario3_bias scenario3_analysis ["US"]).overall_score = 0.725 := by
  obtain ⟨hemp, -, -⟩ := C7_overall_score_mean scenario3_bias scenario3_analysis []
  obtain ⟨-, hne, -⟩ := C7_overall_score_mean scenario3_bias scenario3_analysis ["US"]
  refine ⟨hemp rfl, ?_⟩
  rw [hne (by simp), List.map_cons, List.map_nil, List.sum_cons, List.sum_nil,
    country_score_scenario3]
  norm_num

/-- C8: per requested country, a final score below 0.6 yields a "high"
priority "cultural_adaptation" recommendation, a score in [0.6, 0.8) yields a
"medium" priority "minor_adjustments" recommendation, and a score at or above
0.8 yields none; the request risk level is "low" for overall ≥ 0.8, "medium"
for overall in [0.6, 0.8), and "high" otherwise. -/
theorem C8_recommendations_and_risk (ar : AlignmentResult) (ca : CulturalAnalysis)
    (target_countries : List String) :
    (∀ c ∈ target_countries, (ar.country_scores.lookup c).getD 0 < 0.6 →
      ∃ r ∈ generate_recommendations ar ca target_countries,
        r.country = c ∧ r.priority = "high" ∧ r.rec_type = "cultural_adaptation") ∧
    (∀ c ∈ target_countries, 0.6 ≤ (ar.country_scores.lookup c).getD 0 →
      (ar.country_scores.lookup c).getD 0 < 0.8 →
      ∃ r ∈ generate_recommendations ar ca target_countries,
        r.country = c ∧ r.priority = "medium" ∧ r.rec_type = "minor_adjustments") ∧
    (∀ c : String, 0.8 ≤ (ar.country_scores.lookup c).getD 0 →
      ∀ r ∈ generate_recommendations ar ca target_countries, r.country ≠ c) ∧
    (0.8 ≤ ar.overall_score → calculate_risk_level ar = "low") ∧
    (0.6 ≤ ar.overall_score → ar.overall_score < 0.8 → calculate_risk_level ar = "medium") ∧
    (ar.overall_score < 0.6 → calculate_risk_level ar = "high") := by
  refine ⟨?_, ?_, ?_, ?_, ?_, ?_⟩
  · intro c hc hlt
    have hmem : (Recommendation.mk c "high" "cultural_adaptation"
        ("Consider significant cultural adaptation for " ++ c)
        ((ca.suggestions.lookup c).getD []))
        ∈ generate_recommendations ar ca target_countries := by
      rw [generate_recommendations, List.mem_filterMap]
      exact ⟨c, hc, by rw [if_pos hlt]⟩
    exact ⟨_, hmem, rfl, rfl, rfl⟩
  · intro c hc hge hlt
    have hmem : (Recommendation.mk c "medium" "minor_adjustments"
        ("Minor cultural adjustments recommended for " ++ c)
        ((ca.suggestions.lookup c).getD []))
        ∈ generate_recommendations ar ca target_countries := by
      rw [generate_recommendations, List.mem_filterMap]
      exact ⟨c, hc, by rw [if_neg (not_lt.mpr hge), if_pos hlt]⟩
    exact ⟨_, hmem, rfl, rfl, rfl⟩
  · intro c hge r hr hcon
    rw [generate_recommendations, List.mem_filterMap] at hr
    obtain ⟨c', hc', hif⟩ := hr
    by_cases h1 : (ar.country_scores.lookup c').getD 0 < 0.6
    · rw [if_pos h1] at hif
      obtain rfl := Option.some.inj hif
      have hcc : c' = c := hcon
      rw [hcc] at h1
      linarith
    · rw [if_neg h1] at hif
      by_cases h2 : (ar.country_scores.lookup c').getD 0 < 0.8
      · rw [if_pos h2] at hif
        obtain rfl := Option.some.inj hif
        have hcc : c' = c := hcon
        rw [hcc] at h2
        linarith
      · rw [if_neg h2] at hif
        cases hif
  · intro h
    rw [calculate_risk_level, if_pos (by exact h)]
  · intro hge hlt
    rw [calculate_risk_level, if_neg (by exact not_le.mpr hlt), if_pos (by exact hge)]
  · intro h
    rw [calculate_risk_level, if_neg (by exact not_le.mpr (by linarith)),
      if_neg (by exact not_le.mpr h)]

/-- Witness for C8: in scenario 3 (US final score 0.725, overall 0.725) the
generator emits a medium-priority recommendation for the US and the risk
level is "medium". -/
theorem C8_recommendations_and_risk_witness :
    (∃ r ∈ generate_recommendations
        (calculate_alignment scenario3_bias scenario3_analysis ["US"])
        scenario3_analysis ["US"],
      r.country = "US" ∧ r.priority = "medium" ∧ r.rec_type = "minor_adjustments") ∧
    calculate_risk_level (calculate_alignment scenario3_bias scenario3_analysis ["US"])
      = "medium" := by
  obtain ⟨-, hmed, -, -, hrm, -⟩ :=
    C8_recommendations_and_risk (calculate_alignment scenario3_bias scenario3_analysis ["US"])
      scenario3_analysis ["US"]
  have hca : (calculate_alignment scenario3_bias scenario3_analysis ["US"]).country_scores
      = [("US", 0.725)] := by
    simp [calculate_alignment, country_score_scenario3]
  have hlk : (((calculate_alignment scenario3_bias scenario3_analysis
      ["US"]).country_scores.lookup "US").getD 0 : ℚ) = 0.725 := by
    rw [hca, List.lookup_cons_self]
    rfl
  have hov : (calculate_alignment scenario3_bias scenario3_analysis ["US"]).overall_score
      = 0.725 := by
    norm_num [calculate_alignment, country_score_scenario3]
  exact ⟨hmed "US" (List.mem_cons_self _ _) (by rw [hlk]; norm_num) (by rw [hlk]; norm_num),
    hrm (by rw [hov]; norm_num) (by rw [hov]; norm_num)⟩

/-- Six dimension scores of 0.8 aggregate to a cultural score of exactly 0.8. -/
theorem cultural_score_six_08 : calculate_cultural_score six_scores_08 = 0.8 := by
  have h1 : six_scores_08.lookup "power_distance" = some 0.8 := rfl
  have h2 : six_scores_08.lookup "individualism" = some 0.8 := rfl
  have h3 : six_scores_08.lookup "masculinity" = some 0.8 := rfl
  have h4 : six_scores_08.lookup "uncertainty_avoidance" = some 0.8 := rfl
  have h5 : six_scores_08.lookup "long_term_orientation" = some 0.8 := rfl
  have h6 : six_scores_08.lookup "indulgence" = some 0.8 := rfl
  have he : six_scores_08.isEmpty = false := rfl
  rw [calculate_cultural_score, he]
  norm_num [dimension_weights, h1, h2, h3, h4, h5, h6]

/-- C9 counterexample: a cultural score of exactly 0.8 is labelled "Good",
not "Excellent" — the source compares with strict `>` at both thresholds. -/
theorem C9_alignment_label_counterexample :
    calculate_cultural_score six_scores_08 = 0.8 ∧
    (generate_insights "" [] six_scores_08 "US").alignment_summary
      = "Good cultural alignment with US" ∧
    (generate_insights "" [] six_scores_08 "US").alignment_summary
      ≠ "Excellent cultural alignment with US" := by
  have he : six_scores_08.isEmpty = false := rfl
  have hsum : (generate_insights "" [] six_scores_08 "US").alignment_summary
      = "Good cultural alignment with US" := by
    unfold generate_insights
    rw [he]
    simp only [Bool.false_eq_true, if_false, cultural_score_six_08]
    norm_num
    rfl
  refine ⟨cultural_score_six_08, hsum, ?_⟩
  rw [hsum]
  decide

/-- C9 (amended): the label is the "excellent" variant exactly when the
aggregated score exceeds 0.8, the "good" variant exactly when it exceeds 0.6
without exceeding 0.8, and the misaligned variant otherwise; in particular a
score of exactly 0.8 is labelled good and a score of exactly 0.6 is labelled
misaligned. -/
theorem C9_alignment_label_amended (content : String) (dimensions scores : List (String × ℚ))
    (country : String) (h : scores ≠ []) :
    (calculate_cultural_score scores > 0.8 →
      (generate_insights content dimensions scores country).alignment_summary
        = "Excellent cultural alignment with " ++ country) ∧
    (calculate_cultural_score scores ≤ 0.8 → calculate_cultural_score scores > 0.6 →
      (generate_insights content dimensions scores country).alignment_summary
        = "Good cultural alignment with " ++ country) ∧
    (calculate_cultural_score scores ≤ 0.6 →
      (generate_insights content dimensions scores country).alignment_summary
        = "Cultural misalignment detected for " ++ country) := by
  have he : scores.isEmpty = false := by
    cases scores with
    | nil => exact absurd rfl h
    | cons a t => rfl
  refine ⟨?_, ?_, ?_⟩
  · intro hgt
    unfold generate_insights
    rw [he]
    simp only [Bool.false_eq_true, if_false]
    rw [if_pos hgt]
  · intro hle hgt
    unfold generate_insights
    rw [he]
    simp only [Bool.false_eq_true, if_false]
    rw [if_neg (not_lt.mpr hle), if_pos hgt]
  · intro hle
    unfold generate_insights
    rw [he]
    simp only [Bool.false_eq_true, if_false]
    rw [if_neg (not_lt.mpr (le_trans hle (by norm_num))), if_neg (not_lt.mpr hle)]

/-- Witness for C9: the boundary score 0.8 receives the "Good" label. -/
theorem C9_alignment_label_witness :
    (generate_insights "" [] six_scores_08 "US").alignment_summary
      = "Good cultural alignment with US" := by
  have h := (C9_alignment_label_amended "" [] six_scores_08 "US"
      (by simp [six_scores_08])).2.1
    (by rw [cultural_score_six_08]) (by rw [cultural_score_six_08]; norm_num)
  rw [h]
  rfl

/-- C10: under the data-model invariants (cultural scores at most 1, flag
severities nonnegative) every per-country final score is at most 0.955: the
cultural-fit term contributes at most 0.70, the bias-freedom term at most
0.25, and the confidence bonus at most 0.005, so the upper clamp at 1.0 is
never active. -/
theorem C10_score_cap (country : String) (bias_results : BiasResults) (ca : CulturalAnalysis)
    (hcs : ∀ p ∈ ca.cultural_scores, p.2 ≤ 1)
    (hsev : ∀ f ∈ bias_results.flags, 0 ≤ f.severity) :
    calculate_country_score country bias_results ca ≤ 0.955 ∧
    get_cultural_fit_score country ca * 0.7
        + (1 - calculate_bias_penalty bias_results) * 0.25
        + calculate_confidence_bonus country ca * 0.05 ≤ 0.955 ∧
    calculate_country_score country bias_results ca
      = max 0 (get_cultural_fit_score country ca * 0.7
          + (1 - calculate_bias_penalty bias_results) * 0.25
          + calculate_confidence_bonus country ca * 0.05) := by
  have hfit : get_cultural_fit_score country ca ≤ 1 := by
    rw [get_cultural_fit_score]
    cases hl : ca.cultural_scores.lookup country with
    | none => norm_num
    | some v =>
        have := hcs _ (mem_of_lookup_eq_some hl)
        simpa using this
  have hpen : 0 ≤ calculate_bias_penalty bias_results := by
    rw [bias_penalty_eq]
    refine le_min (by norm_num) (List.sum_nonneg ?_)
    intro x hx
    rw [List.mem_map] at hx
    obtain ⟨f, hf, rfl⟩ := hx
    have := hsev f hf
    positivity
  have hbonus : calculate_confidence_bonus country ca ≤ 0.1 := by
    rw [calculate_confidence_bonus]
    split_ifs <;> norm_num
  have hbonus0 : 0 ≤ calculate_confidence_bonus country ca := by
    rw [calculate_confidence_bonus]
    split_ifs <;> norm_num
  have hbase : get_cultural_fit_score country ca * 0.7
      + (1 - calculate_bias_penalty bias_results) * 0.25
      + calculate_confidence_bonus country ca * 0.05 ≤ 0.955 := by
    nlinarith
  have heq : calculate_country_score country bias_results ca
      = max 0 (get_cultural_fit_score country ca * 0.7
          + (1 - calculate_bias_penalty bias_results) * 0.25
          + calculate_confidence_bonus country ca * 0.05) := by
    show max 0 (min 1 _) = max 0 _
    rw [min_eq_right (by linarith)]
  refine ⟨?_, hbase, heq⟩
  rw [heq]
  exact max_le (by norm_num) hbase

/-- Witness for C10 at scenario 3: the US final score 0.725 respects the
0.955 cap, whose hypotheses hold for the scenario data. -/
theorem C10_score_cap_witness :
    calculate_country_score "US" scenario3_bias scenario3_analysis ≤ 0.955 := by
  refine (C10_score_cap "US" scenario3_bias scenario3_analysis ?_ ?_).1
  · intro p hp
    rw [show scenario3_analysis.cultural_scores = [("US", 0.7)] from rfl,
      List.mem_singleton] at hp
    rw [hp]
    norm_num
  · intro f hf
    rw [show scenario3_bias.flags
        = [{ category := "stereotype", country := none, risk_score := none,
             severity := 8, description := "Potentially offensive cultural descriptors",
             cultural_context := none }] from rfl, List.mem_singleton] at hf
    rw [hf]
    norm_num

end CBS
